import Mathlib

/-!
Verification of the BLE scanning shim layer
(src/main/shim/le_scanning_manager.cc) and the byte-stream address macros
(src/stack/include/bt_types.h) of android_system_bt.

Bytes and C integers are modelled as Nat (resp. Int for signed fields);
strings are modelled as lists of character codes.  Fallible operations
return Option.  Each public operation of BleScannerInterfaceImpl is
modelled by the effects it produces: the list of lower-engine calls it
makes and the list of callback invocations it posts to the jni thread.
-/

namespace BtShim

/-- Character code of the colon separator in the canonical address string. -/
def kColon : Nat := 58

/-- Modelled from the spec: hex-digit emission for the canonical address
string form (uppercase hex); the Address and RawAddress classes are not
under src/. -/
def nibbleToHex (n : Nat) : Nat :=
  if n < 10 then 48 + n else 55 + n

/-- Modelled from the spec: a byte rendered as two uppercase hex digits. -/
def byteToHex (b : Nat) : List Nat :=
  [nibbleToHex (b / 16), nibbleToHex (b % 16)]

/-- Modelled from the spec: canonical string form of a 6-byte address,
octets separated by colons (spec section 3).  Addresses are 6-byte lists. -/
def addrToString (a : List Nat) : List Nat :=
  match a with
  | [b0, b1, b2, b3, b4, b5] =>
    byteToHex b0 ++ (kColon :: (byteToHex b1 ++ (kColon :: (byteToHex b2 ++
      (kColon :: (byteToHex b3 ++ (kColon :: (byteToHex b4 ++
      (kColon :: byteToHex b5)))))))))
  | _ => []

/-- Modelled from the spec: case-insensitive hex-digit value used when
parsing the canonical address string (spec section 4.B). -/
def hexVal (c : Nat) : Option Nat :=
  if 48 ≤ c ∧ c ≤ 57 then some (c - 48)
  else if 65 ≤ c ∧ c ≤ 70 then some (c - 55)
  else if 97 ≤ c ∧ c ≤ 102 then some (c - 87)
  else none

/-- Modelled from the spec: read one byte (two hex digits) from the head of
a character-code list, returning the byte and the remaining characters. -/
def parseByte (s : List Nat) : Option (Nat × List Nat) :=
  match s with
  | c1 :: c2 :: rest =>
    match hexVal c1, hexVal c2 with
    | some hi, some lo => some (16 * hi + lo, rest)
    | _, _ => none
  | _ => none

/-- Modelled from the spec: read a colon separator followed by one byte. -/
def parseColonByte (s : List Nat) : Option (Nat × List Nat) :=
  match s with
  | c :: rest => if c = kColon then parseByte rest else none
  | _ => none

/-- Modelled from the spec: parse of the canonical 6-octet address string,
as performed by Address FromString / RawAddress FromString (not under
src/); fails on anything but the canonical colon-separated form. -/
def addrFromString (s : List Nat) : Option (List Nat) :=
  match parseByte s with
  | none => none
  | some (b0, r0) =>
    match parseColonByte r0 with
    | none => none
    | some (b1, r1) =>
      match parseColonByte r1 with
      | none => none
      | some (b2, r2) =>
        match parseColonByte r2 with
        | none => none
        | some (b3, r3) =>
          match parseColonByte r3 with
          | none => none
          | some (b4, r4) =>
            match parseColonByte r4 with
            | none => none
            | some (b5, r5) =>
              if r5 = [] then some [b0, b1, b2, b3, b4, b5] else none

/-- The address conversion implemented by the shim: stringify the incoming
address and re-parse it into the outgoing address type; a failed parse
leaves the default-constructed (all-zero) destination. -/
def convertAddress (a : List Nat) : List Nat :=
  match addrFromString (addrToString a) with
  | some r => r
  | none => List.replicate 6 0

theorem hexVal_nibbleToHex (n : Nat) (h : n < 16) :
    hexVal (nibbleToHex n) = some n := by
  unfold hexVal nibbleToHex
  by_cases h10 : n < 10
  · rw [if_pos h10, if_pos (by omega)]
    congr 1
    omega
  · rw [if_neg h10, if_neg (by omega), if_pos (by omega)]
    congr 1
    omega

theorem parseByte_byteToHex (b : Nat) (hb : b < 256) (rest : List Nat) :
    parseByte (byteToHex b ++ rest) = some (b, rest) := by
  have h1 : b / 16 < 16 := by omega
  have h2 : b % 16 < 16 := by omega
  simp [byteToHex, parseByte, hexVal_nibbleToHex _ h1, hexVal_nibbleToHex _ h2]
  omega

theorem parseColonByte_cons (b : Nat) (hb : b < 256) (rest : List Nat) :
    parseColonByte (kColon :: (byteToHex b ++ rest)) = some (b, rest) := by
  simp [parseColonByte, parseByte_byteToHex b hb rest]

theorem addr_round_trip (b0 b1 b2 b3 b4 b5 : Nat)
    (h0 : b0 < 256) (h1 : b1 < 256) (h2 : b2 < 256)
    (h3 : b3 < 256) (h4 : b4 < 256) (h5 : b5 < 256) :
    addrFromString (addrToString [b0, b1, b2, b3, b4, b5]) =
      some [b0, b1, b2, b3, b4, b5] := by
  have e5 : parseColonByte (kColon :: byteToHex b5) = some (b5, []) := by
    have := parseColonByte_cons b5 h5 []
    simpa using this
  show addrFromString (byteToHex b0 ++ (kColon :: (byteToHex b1 ++ (kColon ::
    (byteToHex b2 ++ (kColon :: (byteToHex b3 ++ (kColon :: (byteToHex b4 ++
    (kColon :: byteToHex b5)))))))))) = some [b0, b1, b2, b3, b4, b5]
  rw [addrFromString]
  simp only [parseByte_byteToHex b0 h0, parseColonByte_cons b1 h1,
    parseColonByte_cons b2 h2, parseColonByte_cons b3 h3,
    parseColonByte_cons b4 h4, e5, if_pos trivial]

theorem convertAddress_id (b0 b1 b2 b3 b4 b5 : Nat)
    (h0 : b0 < 256) (h1 : b1 < 256) (h2 : b2 < 256)
    (h3 : b3 < 256) (h4 : b4 < 256) (h5 : b5 < 256) :
    convertAddress [b0, b1, b2, b3, b4, b5] = [b0, b1, b2, b3, b4, b5] := by
  unfold convertAddress
  rw [addr_round_trip b0 b1 b2 b3 b4 b5 h0 h1 h2 h3 h4 h5]

/-- Modelled from the spec: the upper-layer Uuid class (bluetooth::Uuid) is
not under src/; the shim consumes it only through the observations IsEmpty,
GetShortestRepresentationSize, As16Bit, As32Bit and To128BitBE, so it is
modelled by exactly those observations.  Per the spec (section 4.B) the
shortest width of a value UUID is one of 2, 4, 16, and the empty UUID is a
distinguished sentinel. -/
structure Uuid where
  isEmpty : Bool
  shortestSize : Nat
  as16 : Nat
  as32 : Nat
  to128BE : List Nat
  deriving DecidableEq, Repr

/-- Modelled from the spec: section 4.B represents the empty UUID as a
distinguished variant, not as one of the U16/U32/U128 value variants, so
the shortest representation size of an empty UUID is none of 2, 4, 16. -/
def Uuid.specWF (u : Uuid) : Prop :=
  u.isEmpty = true → (u.shortestSize ≠ 2 ∧ u.shortestSize ≠ 4 ∧ u.shortestSize ≠ 16)

/-- The lower-engine (hci) Uuid, as produced by From16Bit, From32Bit and
From128BitBE; a default-constructed value is the empty sentinel. -/
inductive HciUuid where
  | empty
  | u16 (v : Nat)
  | u32 (v : Nat)
  | u128 (b : List Nat)
  deriving DecidableEq, Repr

/-- Width constants of bluetooth::Uuid: kNumBytes16. -/
def kNumBytes16 : Nat := 2

/-- Width constants of bluetooth::Uuid: kNumBytes32. -/
def kNumBytes32 : Nat := 4

/-- Width constants of bluetooth::Uuid: kNumBytes128. -/
def kNumBytes128 : Nat := 16

/-- The upper-layer ApcfCommand record as consumed by the shim. -/
structure ApcfCommand where
  type : Nat
  address : List Nat
  addr_type : Nat
  uuid : Uuid
  uuid_mask : Uuid
  name : List Nat
  company : Nat
  company_mask : Nat
  data : List Nat
  data_mask : List Nat
  deriving DecidableEq, Repr

/-- The lower-engine AdvertisingPacketContentFilterCommand record. -/
structure AdvertisingPacketContentFilterCommand where
  filter_type : Nat
  address : List Nat
  application_address_type : Nat
  uuid : HciUuid
  uuid_mask : HciUuid
  name : List Nat
  company : Nat
  company_mask : Nat
  data : List Nat
  data_mask : List Nat
  deriving DecidableEq, Repr

/-- BleScannerInterfaceImpl::parse_filter_command: translates one upper
ApcfCommand into a lower AdvertisingPacketContentFilterCommand; returns
none exactly where the source returns false.  The two switch statements
dispatch on the shortest representation size of the VALUE uuid, for the
mask as well, exactly as the source does. -/
def parse_filter_command (apcf_command : ApcfCommand) :
    Option AdvertisingPacketContentFilterCommand :=
  let address :=
    match addrFromString (addrToString apcf_command.address) with
    | some a => a
    | none => List.replicate 6 0
  let uuid_res : Option HciUuid :=
    if apcf_command.uuid.isEmpty = false then
      let uuid_len := apcf_command.uuid.shortestSize
      if uuid_len = kNumBytes16 then some (HciUuid.u16 apcf_command.uuid.as16)
      else if uuid_len = kNumBytes32 then some (HciUuid.u32 apcf_command.uuid.as32)
      else if uuid_len = kNumBytes128 then some (HciUuid.u128 apcf_command.uuid.to128BE)
      else none
    else some HciUuid.empty
  match uuid_res with
  | none => none
  | some new_uuid =>
    let mask_res : Option HciUuid :=
      if apcf_command.uuid_mask.isEmpty = false then
        let uuid_len := apcf_command.uuid.shortestSize
        if uuid_len = kNumBytes16 then some (HciUuid.u16 apcf_command.uuid_mask.as16)
        else if uuid_len = kNumBytes32 then some (HciUuid.u32 apcf_command.uuid_mask.as32)
        else if uuid_len = kNumBytes128 then some (HciUuid.u128 apcf_command.uuid_mask.to128BE)
        else none
      else some HciUuid.empty
    match mask_res with
    | none => none
    | some new_mask =>
      some { filter_type := apcf_command.type
             address := address
             application_address_type := apcf_command.addr_type
             uuid := new_uuid
             uuid_mask := new_mask
             name := apcf_command.name
             company := apcf_command.company
             company_mask := apcf_command.company_mask
             data := apcf_command.data
             data_mask := apcf_command.data_mask }

/-- Observable effects of one shim operation: the sequence of calls it
makes into the lower engine (GetScanning) and the sequence of callback
invocations it posts to the jni thread, in order. -/
structure Effects (LC : Type) (CB : Type) where
  lower_calls : List LC
  callbacks : List CB
  deriving DecidableEq, Repr

/-- The caller-supplied btgatt_filt_param_setup_t record. -/
structure BtgattFiltParamSetup where
  feat_seln : Nat
  list_logic_type : Nat
  filt_logic_type : Nat
  rssi_high_thres : Int
  rssi_low_thres : Int
  dely_mode : Nat
  found_timeout : Nat
  lost_timeout : Nat
  found_timeout_cnt : Nat
  num_of_tracking_entries : Nat
  deriving DecidableEq, Repr

/-- The lower-engine AdvertisingFilterParameter record; a
default-constructed value has every field zero (the gd struct is not under
src/, its zero default initialization is modelled from the spec). -/
structure AdvertisingFilterParameter where
  feature_selection : Nat := 0
  list_logic_type : Nat := 0
  filter_logic_type : Nat := 0
  rssi_high_thresh : Int := 0
  delivery_mode : Nat := 0
  onfound_timeout : Nat := 0
  onfound_timeout_cnt : Nat := 0
  rssi_low_thres : Int := 0
  onlost_timeout : Nat := 0
  num_of_tracking_entries : Nat := 0
  deriving DecidableEq, Repr

/-- BleScannerInterfaceImpl::RegisterScanner: converts the app uuid to the
hci form and calls the lower engine; the RegisterCallback argument is
never invoked. -/
def RegisterScanner (uuid : Uuid) : Effects HciUuid Unit :=
  { lower_calls := [HciUuid.u128 uuid.to128BE], callbacks := [] }

/-- BleScannerInterfaceImpl::Unregister: unconditionally forwards the
scanner id to the lower engine; the operation takes no callback. -/
def Unregister (scanner_id : Nat) : Effects Nat Unit :=
  { lower_calls := [scanner_id], callbacks := [] }

/-- BleScannerInterfaceImpl::Scan: forwards the start flag to the lower
engine; the operation takes no callback. -/
def Scan (start : Bool) : Effects Bool Unit :=
  { lower_calls := [start], callbacks := [] }

/-- The AdvertisingFilterParameter constructed by ScanFilterParamSetup from
the (possibly null) caller record: common fields are copied whenever the
record is non-null, the OnFound group only when dely_mode is 1. -/
def buildAdvertisingFilterParameter (filt_param : Option BtgattFiltParamSetup) :
    AdvertisingFilterParameter :=
  match filt_param with
  | none => {}
  | some fp =>
    let base : AdvertisingFilterParameter :=
      { feature_selection := fp.feat_seln
        list_logic_type := fp.list_logic_type
        filter_logic_type := fp.filt_logic_type
        rssi_high_thresh := fp.rssi_high_thres
        delivery_mode := fp.dely_mode }
    if fp.dely_mode = 1 then
      { base with
        onfound_timeout := fp.found_timeout
        onfound_timeout_cnt := fp.found_timeout_cnt
        rssi_low_thres := fp.rssi_low_thres
        onlost_timeout := fp.lost_timeout
        num_of_tracking_entries := fp.num_of_tracking_entries }
    else base

/-- BleScannerInterfaceImpl::ScanFilterParamSetup: builds the filter
parameter, calls the lower engine with (action, filter_index, parameter),
and posts the callback once with (0, 0, 0). -/
def ScanFilterParamSetup (_client_if : Nat) (action : Nat) (filter_index : Nat)
    (filt_param : Option BtgattFiltParamSetup) :
    Effects (Nat × Nat × AdvertisingFilterParameter) (Nat × Nat × Nat) :=
  { lower_calls := [(action, filter_index, buildAdvertisingFilterParameter filt_param)]
    callbacks := [(0, 0, 0)] }

/-- The translation loop of ScanFilterAdd: translate the commands in order,
stopping with none at the first command whose translation fails. -/
def translate_all : List ApcfCommand →
    Option (List AdvertisingPacketContentFilterCommand)
  | [] => some []
  | f :: fs =>
    match parse_filter_command f with
    | none => none
    | some c =>
      match translate_all fs with
      | none => none
      | some cs => some (c :: cs)

/-- BleScannerInterfaceImpl::ScanFilterAdd: translates every command; on
any failure it returns with no lower-engine call and no callback; on
success it submits the whole batch once and posts the callback once with
(0, 0, 0, 0). -/
def ScanFilterAdd (filter_index : Nat) (filters : List ApcfCommand) :
    Effects (Nat × List AdvertisingPacketContentFilterCommand)
      (Nat × Nat × Nat × Nat) :=
  match translate_all filters with
  | none => { lower_calls := [], callbacks := [] }
  | some new_filters =>
    { lower_calls := [(filter_index, new_filters)], callbacks := [(0, 0, 0, 0)] }

/-- BleScannerInterfaceImpl::ScanFilterClear: the body only logs; the
callback is never invoked and the lower engine is never called. -/
def ScanFilterClear (_filter_index : Nat) :
    Effects Nat (Nat × Nat × Nat × Nat) :=
  { lower_calls := [], callbacks := [] }

/-- BleScannerInterfaceImpl::ScanFilterEnable: calls the lower engine and
posts the callback once with (enable ? 1 : 0, 0). -/
def ScanFilterEnable (enable : Bool) : Effects Bool (Nat × Nat) :=
  { lower_calls := [enable]
    callbacks := [((if enable then 1 else 0), 0)] }

/-- BleScannerInterfaceImpl::SetScanParameters: always uses active scan
(type 1) with the first interval and window, and posts the callback once
with status 0; the source performs no validation of the arguments. -/
def SetScanParameters (_scan_phy : Nat) (scan_interval : List Nat)
    (scan_window : List Nat) : Effects (Nat × Nat × Nat) Nat :=
  { lower_calls := [(1, scan_interval.headD 0, scan_window.headD 0)]
    callbacks := [0] }

/-- The scan-result message posted to the jni thread by OnScanResult. -/
structure ScanResultMsg where
  event_type : Nat
  address_type : Nat
  address : List Nat
  primary_phy : Nat
  secondary_phy : Nat
  advertising_sid : Nat
  tx_power : Int
  rssi : Int
  periodic_advertising_interval : Nat
  advertising_data : List Nat
  deriving DecidableEq, Repr

/-- BleScannerInterfaceImpl::OnScanResult: converts the lower-engine
address by stringifying and re-parsing it, and forwards every other field
unchanged in the posted message. -/
def OnScanResult (event_type : Nat) (address_type : Nat) (address : List Nat)
    (primary_phy : Nat) (secondary_phy : Nat) (advertising_sid : Nat)
    (tx_power : Int) (rssi : Int) (periodic_advertising_interval : Nat)
    (advertising_data : List Nat) : ScanResultMsg :=
  { event_type := event_type
    address_type := address_type
    address := convertAddress address
    primary_phy := primary_phy
    secondary_phy := secondary_phy
    advertising_sid := advertising_sid
    tx_power := tx_power
    rssi := rssi
    periodic_advertising_interval := periodic_advertising_interval
    advertising_data := advertising_data }

/-- BD_ADDR_LEN from bt_types.h. -/
def BD_ADDR_LEN : Nat := 6

/-- BDADDR_TO_STREAM from bt_types.h: the sequence of bytes the macro
writes through the stream cursor, in write order; step ijk writes address
byte BD_ADDR_LEN - 1 - ijk, so the cursor advances by the length of this
list. -/
def BDADDR_TO_STREAM (a : List Nat) : List Nat :=
  (List.range BD_ADDR_LEN).map (fun ijk => a.getD (BD_ADDR_LEN - 1 - ijk) 0)

/-- STREAM_TO_BDADDR from bt_types.h: starting from the destination
address a and the stream bytes at the cursor p, step ijk stores the next
stream byte at address position BD_ADDR_LEN - 1 - ijk; returns the updated
address together with the unconsumed remainder of the stream (reading past
the end of the stream is the caller's bounds error and yields 0). -/
def STREAM_TO_BDADDR (a : List Nat) (p : List Nat) : List Nat × List Nat :=
  (List.range BD_ADDR_LEN).foldl
    (fun acc ijk =>
      match acc.2 with
      | [] => (acc.1.set (BD_ADDR_LEN - 1 - ijk) 0, [])
      | b :: rest => (acc.1.set (BD_ADDR_LEN - 1 - ijk) b, rest))
    (a, p)

/-- A well-formed 16-bit service-uuid filter command (scenario S2 of the
spec: uuid 0x180F with mask 0xFFFF). -/
def goodCmd : ApcfCommand :=
  { type := 4
    address := [170, 187, 204, 221, 238, 255]
    addr_type := 0
    uuid := { isEmpty := false, shortestSize := 2, as16 := 6159, as32 := 6159,
              to128BE := [] }
    uuid_mask := { isEmpty := false, shortestSize := 2, as16 := 65535, as32 := 0,
                   to128BE := [] }
    name := []
    company := 0
    company_mask := 0
    data := [2, 1, 6]
    data_mask := [255, 255, 255] }

/-- A command whose value uuid reports the illegal shortest width 8
(scenario S3 of the spec). -/
def badCmd : ApcfCommand :=
  { goodCmd with
    uuid := { isEmpty := false, shortestSize := 8, as16 := 0, as32 := 0,
              to128BE := [] } }

/-- A command carrying a uuid mask but an empty value uuid. -/
def maskOnlyCmd : ApcfCommand :=
  { goodCmd with
    uuid := { isEmpty := true, shortestSize := 0, as16 := 0, as32 := 0,
              to128BE := [] }
    uuid_mask := { isEmpty := false, shortestSize := 16, as16 := 0, as32 := 0,
                   to128BE := List.replicate 16 255 } }

/-- An app uuid for witness inputs. -/
def exampleAppUuid : Uuid :=
  { isEmpty := false, shortestSize := 16, as16 := 0, as32 := 0,
    to128BE := List.replicate 15 0 ++ [1] }

theorem translate_all_none_iff (filters : List ApcfCommand) :
    translate_all filters = none ↔
      ∃ f ∈ filters, parse_filter_command f = none := by
  induction filters with
  | nil => simp [translate_all]
  | cons f fs ih =>
    cases hf : parse_filter_command f with
    | none =>
      simp only [translate_all, hf]
      exact ⟨fun _ => ⟨f, by simp, hf⟩, fun _ => trivial⟩
    | some c =>
      cases hfs : translate_all fs with
      | none =>
        simp only [translate_all, hf, hfs]
        obtain ⟨g, hg, hgp⟩ := ih.mp hfs
        exact ⟨fun _ => ⟨g, by simp [hg], hgp⟩, fun _ => trivial⟩
      | some cs =>
        simp only [translate_all, hf, hfs]
        constructor
        · intro h
          exact absurd h (by simp)
        · rintro ⟨g, hg, hgp⟩
          rcases List.mem_cons.mp hg with rfl | hg'
          · rw [hf] at hgp
            exact absurd hgp (by simp)
          · have : translate_all fs = none := ih.mpr ⟨g, hg', hgp⟩
            rw [hfs] at this
            exact absurd this (by simp)

theorem translate_all_some_eq (filters : List ApcfCommand)
    (h : ∀ f ∈ filters, parse_filter_command f ≠ none) :
    translate_all filters = some (filters.filterMap parse_filter_command) := by
  induction filters with
  | nil => simp [translate_all]
  | cons f fs ih =>
    cases hf : parse_filter_command f with
    | none => exact absurd hf (h f (by simp))
    | some c =>
      have hrest := ih (fun g hg => h g (by simp [hg]))
      simp only [translate_all, hf, hrest, List.filterMap_cons]

/-- Claim C1: ScanFilterAdd is all-or-nothing: if any command fails
translation there are zero lower-engine submissions and the callback is
never invoked; if every command translates, exactly one batch containing
every translated command in order is submitted and the callback is posted
exactly once with (0, 0, 0, 0). -/
theorem scanFilterAdd_all_or_nothing (filter_index : Nat)
    (filters : List ApcfCommand) :
    ((∃ f ∈ filters, parse_filter_command f = none) →
      ScanFilterAdd filter_index filters =
        { lower_calls := [], callbacks := [] }) ∧
    ((∀ f ∈ filters, parse_filter_command f ≠ none) →
      ScanFilterAdd filter_index filters =
        { lower_calls := [(filter_index, filters.filterMap parse_filter_command)]
          callbacks := [(0, 0, 0, 0)] }) := by
  constructor
  · intro hex
    have hn : translate_all filters = none :=
      (translate_all_none_iff filters).mpr hex
    simp [ScanFilterAdd, hn]
  · intro hall
    simp [ScanFilterAdd, translate_all_some_eq filters hall]

/-- Witness for C1: a batch containing the illegal-width command aborts
with no submission and no callback, while the well-formed batch is
submitted once with one callback. -/
theorem scanFilterAdd_all_or_nothing_witness :
    ScanFilterAdd 0 [goodCmd, badCmd] = { lower_calls := [], callbacks := [] } ∧
    ScanFilterAdd 0 [goodCmd] =
      { lower_calls := [(0, [goodCmd].filterMap parse_filter_command)]
        callbacks := [(0, 0, 0, 0)] } :=
  ⟨(scanFilterAdd_all_or_nothing 0 [goodCmd, badCmd]).1
      ⟨badCmd, by decide, by decide⟩,
   (scanFilterAdd_all_or_nothing 0 [goodCmd]).2 (by decide)⟩

/-- Claim C2: for a command with a non-empty value uuid, a successful
translation carries a 16-bit uuid when the shortest representation size is
2, a 32-bit uuid when it is 4, and the big-endian 128-bit bytes when it is
16; any other shortest size makes the translation of the command fail. -/
theorem parse_filter_command_uuid_width (cmd : ApcfCommand)
    (h : cmd.uuid.isEmpty = false) :
    (∀ r, parse_filter_command cmd = some r →
      r.uuid = (if cmd.uuid.shortestSize = kNumBytes16 then
          HciUuid.u16 cmd.uuid.as16
        else if cmd.uuid.shortestSize = kNumBytes32 then
          HciUuid.u32 cmd.uuid.as32
        else HciUuid.u128 cmd.uuid.to128BE)) ∧
    (cmd.uuid.shortestSize ≠ kNumBytes16 →
      cmd.uuid.shortestSize ≠ kNumBytes32 →
      cmd.uuid.shortestSize ≠ kNumBytes128 →
      parse_filter_command cmd = none) := by
  by_cases h16 : cmd.uuid.shortestSize = kNumBytes16
  · refine ⟨fun r hr => ?_, fun hn16 _ _ => absurd h16 hn16⟩
    cases hm : cmd.uuid_mask.isEmpty <;>
      simp only [parse_filter_command, h, hm, h16, kNumBytes16] at hr <;>
      (cases hr; simp_all)
  · by_cases h32 : cmd.uuid.shortestSize = kNumBytes32
    · refine ⟨fun r hr => ?_, fun _ hn32 _ => absurd h32 hn32⟩
      cases hm : cmd.uuid_mask.isEmpty <;>
        simp only [parse_filter_command, h, hm, h16, h32, kNumBytes16,
          kNumBytes32] at hr <;>
        (cases hr; simp_all)
    · by_cases h128 : cmd.uuid.shortestSize = kNumBytes128
      · refine ⟨fun r hr => ?_, fun _ _ hn128 => absurd h128 hn128⟩
        cases hm : cmd.uuid_mask.isEmpty <;>
          simp only [parse_filter_command, h, hm, h16, h32, h128, kNumBytes16,
            kNumBytes32, kNumBytes128] at hr <;>
          (cases hr; simp_all)
      · refine ⟨fun r hr => ?_, fun _ _ _ => ?_⟩
        · exact absurd hr (by simp [parse_filter_command, h, h16, h32, h128])
        · simp [parse_filter_command, h, h16, h32, h128]

/-- Witness for C2: the 16-bit service-uuid command translates to a 16-bit
uuid, and the illegal-width command is rejected. -/
theorem parse_filter_command_uuid_width_witness :
    (goodCmd.uuid.isEmpty = false ∧
      (∀ r, parse_filter_command goodCmd = some r →
        r.uuid = (if goodCmd.uuid.shortestSize = kNumBytes16 then
            HciUuid.u16 goodCmd.uuid.as16
          else if goodCmd.uuid.shortestSize = kNumBytes32 then
            HciUuid.u32 goodCmd.uuid.as32
          else HciUuid.u128 goodCmd.uuid.to128BE))) ∧
    (badCmd.uuid.isEmpty = false ∧ parse_filter_command badCmd = none) :=
  ⟨⟨rfl, (parse_filter_command_uuid_width goodCmd rfl).1⟩,
   ⟨rfl, (parse_filter_command_uuid_width badCmd rfl).2
      (by decide) (by decide) (by decide)⟩⟩

/-- Claim C3: a command whose uuid mask is non-empty while the value uuid
is empty fails translation (the mask switch dispatches on the value uuid's
shortest size, which for the spec's distinguished empty sentinel is none
of 2, 4, 16, so the default branch rejects the command). -/
theorem parse_filter_command_mask_without_value (cmd : ApcfCommand)
    (hwf : Uuid.specWF cmd.uuid) (he : cmd.uuid.isEmpty = true)
    (hm : cmd.uuid_mask.isEmpty = false) :
    parse_filter_command cmd = none := by
  obtain ⟨h2, h4, h16⟩ := hwf he
  simp [parse_filter_command, he, hm, kNumBytes16, kNumBytes32, kNumBytes128,
    h2, h4, h16]

/-- Witness for C3: the concrete mask-only command is rejected. -/
theorem parse_filter_command_mask_without_value_witness :
    Uuid.specWF maskOnlyCmd.uuid ∧ maskOnlyCmd.uuid.isEmpty = true ∧
    maskOnlyCmd.uuid_mask.isEmpty = false ∧
    parse_filter_command maskOnlyCmd = none :=
  ⟨by intro h; decide, rfl, rfl,
   parse_filter_command_mask_without_value maskOnlyCmd (by intro h; decide) rfl rfl⟩

/-- Counterexample to C4: with window 20 greater than interval 10 the
operation still posts exactly the success callback with status 0 and never
a status-2 (invalid-argument) callback, so it does not fail. -/
theorem setScanParameters_window_check_cex :
    10 < 20 ∧
    (SetScanParameters 1 [10] [20]).callbacks = [0] ∧
    ¬ 2 ∈ (SetScanParameters 1 [10] [20]).callbacks := by decide

/-- Claim C4 as amended: SetScanParameters performs no validation: even
when the first window exceeds the first interval it makes exactly one
lower-engine call with (active, interval, window) and posts the callback
exactly once with status 0. -/
theorem setScanParameters_no_window_validation (scan_phy : Nat)
    (scan_interval scan_window : List Nat)
    (_h : scan_interval.headD 0 < scan_window.headD 0) :
    SetScanParameters scan_phy scan_interval scan_window =
      { lower_calls := [(1, scan_interval.headD 0, scan_window.headD 0)]
        callbacks := [0] } := rfl

/-- Witness for the amended C4 at interval 10, window 20. -/
theorem setScanParameters_no_window_validation_witness :
    ([10] : List Nat).headD 0 < ([20] : List Nat).headD 0 ∧
    SetScanParameters 1 [10] [20] =
      { lower_calls := [(1, 10, 20)], callbacks := [0] } :=
  ⟨by decide, setScanParameters_no_window_validation 1 [10] [20] (by decide)⟩

/-- Counterexample to C5: ScanFilterClear never invokes its supplied
callback (its body only logs) and RegisterScanner never invokes the
RegisterCallback it is handed, so neither invokes it exactly once. -/
theorem callback_once_cex :
    (ScanFilterClear 0).callbacks.length ≠ 1 ∧
    (RegisterScanner exampleAppUuid).callbacks.length ≠ 1 := by decide

/-- Claim C5 as amended: SetScanParameters, ScanFilterParamSetup and
ScanFilterEnable invoke their supplied callback exactly once per call,
while RegisterScanner and ScanFilterClear never invoke the callback they
are handed, and Unregister and Scan take no callback and post none. -/
theorem callback_invocation_counts (scan_phy : Nat)
    (scan_interval scan_window : List Nat) (client_if action filter_index : Nat)
    (fp : Option BtgattFiltParamSetup) (enable start : Bool) (u : Uuid)
    (scanner_id fi2 : Nat) :
    (SetScanParameters scan_phy scan_interval scan_window).callbacks.length = 1 ∧
    (ScanFilterParamSetup client_if action filter_index fp).callbacks.length = 1 ∧
    (ScanFilterEnable enable).callbacks.length = 1 ∧
    (RegisterScanner u).callbacks.length = 0 ∧
    (ScanFilterClear fi2).callbacks.length = 0 ∧
    (Unregister scanner_id).callbacks.length = 0 ∧
    (Scan start).callbacks.length = 0 :=
  ⟨rfl, rfl, rfl, rfl, rfl, rfl, rfl⟩

/-- Claim C6: in the parameter record handed to the lower engine by
ScanFilterParamSetup with a non-null caller record, the five common fields
are always copied from the caller, and the five OnFound fields are copied
exactly when dely_mode is 1 and otherwise keep their zero defaults. -/
theorem scanFilterParamSetup_onfound_fields (client_if action filter_index : Nat)
    (fp : BtgattFiltParamSetup) :
    (ScanFilterParamSetup client_if action filter_index (some fp)).lower_calls =
      [(action, filter_index, buildAdvertisingFilterParameter (some fp))] ∧
    (buildAdvertisingFilterParameter (some fp)).feature_selection = fp.feat_seln ∧
    (buildAdvertisingFilterParameter (some fp)).list_logic_type = fp.list_logic_type ∧
    (buildAdvertisingFilterParameter (some fp)).filter_logic_type = fp.filt_logic_type ∧
    (buildAdvertisingFilterParameter (some fp)).rssi_high_thresh = fp.rssi_high_thres ∧
    (buildAdvertisingFilterParameter (some fp)).delivery_mode = fp.dely_mode ∧
    (buildAdvertisingFilterParameter (some fp)).onfound_timeout =
      (if fp.dely_mode = 1 then fp.found_timeout else 0) ∧
    (buildAdvertisingFilterParameter (some fp)).onfound_timeout_cnt =
      (if fp.dely_mode = 1 then fp.found_timeout_cnt else 0) ∧
    (buildAdvertisingFilterParameter (some fp)).rssi_low_thres =
      (if fp.dely_mode = 1 then fp.rssi_low_thres else 0) ∧
    (buildAdvertisingFilterParameter (some fp)).onlost_timeout =
      (if fp.dely_mode = 1 then fp.lost_timeout else 0) ∧
    (buildAdvertisingFilterParameter (some fp)).num_of_tracking_entries =
      (if fp.dely_mode = 1 then fp.num_of_tracking_entries else 0) := by
  by_cases h : fp.dely_mode = 1 <;>
    simp [ScanFilterParamSetup, buildAdvertisingFilterParameter, h]

/-- Counterexample to C7: Unregister of scanner id 42, which no layer of
this shim ever registered (the shim keeps no registration table), still
makes one lower-engine unregister call instead of being a no-op. -/
theorem unregister_unknown_cex :
    (Unregister 42).lower_calls = [42] ∧
    (Unregister 42).lower_calls ≠ [] ∧
    (Unregister 42).callbacks = [] := by decide

/-- Claim C7 as amended: the shim performs no registration check: for
every scanner id, registered or not, Unregister forwards exactly one
unregister call to the lower engine and delivers no upper callback. -/
theorem unregister_always_forwards (scanner_id : Nat) :
    Unregister scanner_id =
      { lower_calls := [scanner_id], callbacks := [] } := rfl

/-- Claim C8: the message OnScanResult posts carries an address
byte-for-byte equal to the incoming 6-byte address (the stringify-reparse
conversion is a byte copy for every address) and every other field
unchanged. -/
theorem onScanResult_address_byte_copy (event_type address_type : Nat)
    (b0 b1 b2 b3 b4 b5 : Nat)
    (h0 : b0 < 256) (h1 : b1 < 256) (h2 : b2 < 256)
    (h3 : b3 < 256) (h4 : b4 < 256) (h5 : b5 < 256)
    (primary_phy secondary_phy advertising_sid : Nat) (tx_power rssi : Int)
    (periodic_advertising_interval : Nat) (advertising_data : List Nat) :
    OnScanResult event_type address_type [b0, b1, b2, b3, b4, b5] primary_phy
        secondary_phy advertising_sid tx_power rssi
        periodic_advertising_interval advertising_data =
      { event_type := event_type
        address_type := address_type
        address := [b0, b1, b2, b3, b4, b5]
        primary_phy := primary_phy
        secondary_phy := secondary_phy
        advertising_sid := advertising_sid
        tx_power := tx_power
        rssi := rssi
        periodic_advertising_interval := periodic_advertising_interval
        advertising_data := advertising_data } := by
  unfold OnScanResult
  rw [convertAddress_id b0 b1 b2 b3 b4 b5 h0 h1 h2 h3 h4 h5]

/-- Witness for C8 at address AA:BB:CC:DD:EE:FF with the S1 scan-report
fields. -/
theorem onScanResult_address_byte_copy_witness :
    OnScanResult 19 0 [170, 187, 204, 221, 238, 255] 1 0 0 0 (-60) 0 [2, 1, 6] =
      { event_type := 19
        address_type := 0
        address := [170, 187, 204, 221, 238, 255]
        primary_phy := 1
        secondary_phy := 0
        advertising_sid := 0
        tx_power := 0
        rssi := -60
        periodic_advertising_interval := 0
        advertising_data := [2, 1, 6] } :=
  onScanResult_address_byte_copy 19 0 170 187 204 221 238 255
    (by decide) (by decide) (by decide) (by decide) (by decide) (by decide)
    1 0 0 0 (-60) 0 [2, 1, 6]

/-- Claim C9: BDADDR_TO_STREAM writes the six address bytes in reversed
order (least-significant byte first) advancing the stream cursor by
exactly six, and STREAM_TO_BDADDR inverts it: reading the written stream
back consumes exactly six bytes and restores the original address
byte-for-byte. -/
theorem bdaddr_stream_round_trip (a0 a1 a2 a3 a4 a5 : Nat)
    (x0 x1 x2 x3 x4 x5 : Nat) (rest : List Nat) :
    BDADDR_TO_STREAM [a0, a1, a2, a3, a4, a5] = [a5, a4, a3, a2, a1, a0] ∧
    (BDADDR_TO_STREAM [a0, a1, a2, a3, a4, a5]).length = BD_ADDR_LEN ∧
    STREAM_TO_BDADDR [x0, x1, x2, x3, x4, x5]
        (BDADDR_TO_STREAM [a0, a1, a2, a3, a4, a5] ++ rest) =
      ([a0, a1, a2, a3, a4, a5], rest) :=
  ⟨rfl, rfl, rfl⟩

/-- Claim C10: ScanFilterParamSetup with a null caller record still makes
its lower-engine call, handing over the all-zero default-constructed
parameter record, and posts the callback exactly once with (0, 0, 0). -/
theorem scanFilterParamSetup_null_param (client_if action filter_index : Nat) :
    ScanFilterParamSetup client_if action filter_index none =
      { lower_calls := [(action, filter_index,
          { feature_selection := 0
            list_logic_type := 0
            filter_logic_type := 0
            rssi_high_thresh := 0
            delivery_mode := 0
            onfound_timeout := 0
            onfound_timeout_cnt := 0
            rssi_low_thres := 0
            onlost_timeout := 0
            num_of_tracking_entries := 0 })]
        callbacks := [(0, 0, 0)] } := rfl

end BtShim
